import Mathlib

/-!
Verification development for the low-level peripheral setup code of a
microcontroller robot control board (files `setup.c`, `platform.h`,
`buttons.c`).

The hardware-abstraction calls made by the C code are embedded as an
`Event` type; every `setup_*` function of `setup.c` is translated into
the exact sequence of events it emits, and the hardware configuration
reached by executing those events is a fold of a `step` function over a
`HWState` record.  Compile-time constants that live in the missing
header `setup.h` are collected in a `Config` record and threaded
through as parameters.
-/

namespace Meiga

/-- 32-bit unsigned modulus, for the C `uint32_t` arithmetic. -/
def UINT32_MOD : Nat := 2 ^ 32

/-- Compile-time constants from `setup.h` (the header is not among the
source files; the constants are kept abstract as parameters). -/
structure Config where
  SYSTICK_FREQUENCY_HZ : Nat
  SYSCLK_FREQUENCY_HZ : Nat
  DRIVER_PWM_PERIOD : Nat
  SPEAKER_BASE_FREQUENCY_HZ : Nat
deriving DecidableEq

/-- Timer peripheral base identifiers (libopencm3 `TIM8`, `TIM11`). -/
def TIM8 : Nat := 0x40010400

def TIM11 : Nat := 0x40014800

/-- Output-compare channel identifiers (libopencm3 `enum tim_oc_id`). -/
def TIM_OC1 : Nat := 0

def TIM_OC2 : Nat := 2

def TIM_OC3 : Nat := 4

def TIM_OC4 : Nat := 6

/-- Output-compare mode PWM1 (libopencm3 `TIM_OCM_PWM1`): output active
while the counter is below the compare register. -/
def TIM_OCM_PWM1 : Nat := 6

/-- Frozen-mode value used as the reset value of an OC mode field. -/
def TIM_OCM_FROZEN : Nat := 0

/-- `TIM_CR1_CKD_CK_INT`: no clock division. -/
def TIM_CR1_CKD_CK_INT : Nat := 0

/-- `TIM_CR1_CMS_EDGE`: edge-aligned counting. -/
def TIM_CR1_CMS_EDGE : Nat := 0

/-- `TIM_CR1_DIR_UP`: up-counting. -/
def TIM_CR1_DIR_UP : Nat := 0

/-- RCC peripheral-clock identifiers used by `setup_clock`. -/
def RCC_GPIOA : Nat := 0

def RCC_GPIOB : Nat := 1

def RCC_GPIOC : Nat := 2

def RCC_TIM8 : Nat := 3

def RCC_TIM11 : Nat := 4

/-- GPIO port identifiers. -/
def GPIOA : Nat := 0

def GPIOB : Nat := 1

def GPIOC : Nat := 2

/-- GPIO mode constants (libopencm3). -/
def GPIO_MODE_OUTPUT : Nat := 1

def GPIO_MODE_AF : Nat := 2

def GPIO_PUPD_NONE : Nat := 0

/-- GPIO pin bit masks. -/
def GPIO0 : Nat := 1

def GPIO1 : Nat := 2

def GPIO2 : Nat := 4

def GPIO3 : Nat := 8

def GPIO6 : Nat := 64

def GPIO7 : Nat := 128

def GPIO8 : Nat := 256

def GPIO9 : Nat := 512

def GPIO13 : Nat := 8192

/-- Alternate function number 3. -/
def GPIO_AF3 : Nat := 3

/-- A clock plan: oscillator input, target system clock and the derived
bus frequencies, as in the `rcc_clock_scale` presets. -/
structure ClockPlan where
  oscillator_freq : Nat
  target_sysclk : Nat
  ahb : Nat
  apb1 : Nat
  apb2 : Nat
deriving DecidableEq

/-- Documented AHB ceiling: 180 MHz (comment in `setup_clock`). -/
def AHB_MAX_HZ : Nat := 180000000

/-- Documented APB1 ceiling for this part (RM0090): 42 MHz. -/
def APB1_MAX_HZ : Nat := 42000000

/-- Documented APB2 ceiling for this part (RM0090): 84 MHz. -/
def APB2_MAX_HZ : Nat := 84000000

/-- Modelled from the spec: the supported clock preset used by
`setup_clock` — the preset table `rcc_hse_16mhz_3v3[RCC_CLOCK_3V3_168MHZ]`
belongs to the hardware-abstraction library and is not among the source
files.  The derived frequencies are those documented in `setup_clock`:
AHB 168 MHz, APB1 42 MHz, APB2 84 MHz from a 16 MHz oscillator. -/
def clock_presets : List ClockPlan :=
  [⟨16000000, 168000000, 168000000, 42000000, 84000000⟩]

/-- Modelled from the spec: `configure(oscillator_freq_hz,
target_sysclk_hz) -> ClockPlan`, failing if the requested target is not
a supported preset for the given oscillator or if any derived bus
frequency exceeds its hardware ceiling. -/
def configure (osc target : Nat) : Option ClockPlan :=
  match clock_presets.find?
      (fun p => p.oscillator_freq == osc && p.target_sysclk == target) with
  | some p =>
      if p.ahb ≤ AHB_MAX_HZ && p.apb1 ≤ APB1_MAX_HZ && p.apb2 ≤ APB2_MAX_HZ then
        some p
      else
        none
  | none => none

/-- The C expression `bus / tick - 1` on `uint32_t` operands: the
quotient is by truncating integer division, and the subtraction wraps
modulo 2^32 (so a zero quotient yields 2^32 − 1, never a failure). -/
def pwm_prescaler (bus tick : Nat) : Nat :=
  (bus / tick + (UINT32_MOD - 1)) % UINT32_MOD

/-- The exact counter tick frequency produced by a programmed prescaler
`p` on a bus running at `bus` Hz: `bus / (p + 1)` as a rational. -/
def reconstructedTick (bus p : Nat) : ℚ :=
  (bus : ℚ) / ((p : ℚ) + 1)

/-- One hardware-abstraction call made by the C code. -/
inductive Event where
  | rcc_clock_setup_hsi_3v3 (plan : ClockPlan)
  | rcc_periph_clock_enable (periph : Nat)
  | dwt_enable_cycle_counter
  | gpio_mode_setup (port mode pupd pins : Nat)
  | gpio_clear (port pins : Nat)
  | gpio_set_af (port af pins : Nat)
  | timer_set_mode (tim ckd cms dir : Nat)
  | timer_set_prescaler (tim value : Nat)
  | timer_set_repetition_counter (tim value : Nat)
  | timer_enable_preload (tim : Nat)
  | timer_continuous_mode (tim : Nat)
  | timer_set_period (tim value : Nat)
  | timer_set_oc_mode (tim ch mode : Nat)
  | timer_set_oc_value (tim ch value : Nat)
  | timer_enable_oc_output (tim ch : Nat)
  | timer_disable_oc_output (tim ch : Nat)
  | timer_enable_break_main_output (tim : Nat)
  | timer_enable_counter (tim : Nat)
  | systick_set_frequency (freq ahb : Nat)
  | systick_counter_enable
  | systick_interrupt_enable
  | systick_interrupt_disable
deriving DecidableEq

/-- State of one output-compare channel. -/
structure OCState where
  mode : Nat
  value : Nat
  outputEnabled : Bool
deriving DecidableEq

/-- Reset state of an output-compare channel. -/
def OCState.reset : OCState :=
  ⟨TIM_OCM_FROZEN, 0, false⟩

/-- State of one timer peripheral. -/
structure TimerState where
  ckd : Nat
  cms : Nat
  dir : Nat
  prescaler : Nat
  repetitionCounter : Nat
  preloadEnabled : Bool
  continuousMode : Bool
  period : Nat
  oc1 : OCState
  oc2 : OCState
  oc3 : OCState
  oc4 : OCState
  breakMainOutputEnabled : Bool
  counterEnabled : Bool
deriving DecidableEq

/-- Reset state of a timer peripheral. -/
def TimerState.reset : TimerState :=
  ⟨0, 0, 0, 0, 0, false, false, 0,
   OCState.reset, OCState.reset, OCState.reset, OCState.reset,
   false, false⟩

/-- Update one output-compare channel of a timer, selected by its
`tim_oc_id`. -/
def TimerState.updateOC (t : TimerState) (ch : Nat) (f : OCState → OCState) :
    TimerState :=
  if ch = TIM_OC1 then { t with oc1 := f t.oc1 }
  else if ch = TIM_OC2 then { t with oc2 := f t.oc2 }
  else if ch = TIM_OC3 then { t with oc3 := f t.oc3 }
  else if ch = TIM_OC4 then { t with oc4 := f t.oc4 }
  else t

/-- State of the SysTick core peripheral. -/
structure SysTickState where
  tickFrequency : Nat
  ahbInput : Nat
  reload : Nat
  counterEnabled : Bool
  interruptEnabled : Bool
deriving DecidableEq

/-- Reset state of SysTick: counter stopped, interruption disabled. -/
def SysTickState.reset : SysTickState :=
  ⟨0, 0, 0, false, false⟩

/-- The hardware state touched by `setup.c`. -/
structure HWState where
  clock : Option ClockPlan
  rccEnabled : List Nat
  cycleCounterEnabled : Bool
  tim8 : TimerState
  tim11 : TimerState
  systick : SysTickState
deriving DecidableEq

/-- Reset state of the whole board. -/
def HWState.reset : HWState :=
  ⟨none, [], false, TimerState.reset, TimerState.reset, SysTickState.reset⟩

/-- Update the timer peripheral selected by its base identifier. -/
def HWState.updateTimer (s : HWState) (tim : Nat) (f : TimerState → TimerState) :
    HWState :=
  if tim = TIM8 then { s with tim8 := f s.tim8 }
  else if tim = TIM11 then { s with tim11 := f s.tim11 }
  else s

/-- Effect of one hardware-abstraction call on the hardware state.  GPIO
calls touch only pin-mode registers, which no claim observes, so they
leave this state untouched. -/
def step (s : HWState) (e : Event) : HWState :=
  match e with
  | .rcc_clock_setup_hsi_3v3 plan => { s with clock := some plan }
  | .rcc_periph_clock_enable periph =>
      { s with rccEnabled := s.rccEnabled ++ [periph] }
  | .dwt_enable_cycle_counter => { s with cycleCounterEnabled := true }
  | .gpio_mode_setup _ _ _ _ => s
  | .gpio_clear _ _ => s
  | .gpio_set_af _ _ _ => s
  | .timer_set_mode tim ckd cms dir =>
      s.updateTimer tim fun t => { t with ckd := ckd, cms := cms, dir := dir }
  | .timer_set_prescaler tim value =>
      s.updateTimer tim fun t => { t with prescaler := value }
  | .timer_set_repetition_counter tim value =>
      s.updateTimer tim fun t => { t with repetitionCounter := value }
  | .timer_enable_preload tim =>
      s.updateTimer tim fun t => { t with preloadEnabled := true }
  | .timer_continuous_mode tim =>
      s.updateTimer tim fun t => { t with continuousMode := true }
  | .timer_set_period tim value =>
      s.updateTimer tim fun t => { t with period := value }
  | .timer_set_oc_mode tim ch mode =>
      s.updateTimer tim fun t => t.updateOC ch fun c => { c with mode := mode }
  | .timer_set_oc_value tim ch value =>
      s.updateTimer tim fun t => t.updateOC ch fun c => { c with value := value }
  | .timer_enable_oc_output tim ch =>
      s.updateTimer tim fun t =>
        t.updateOC ch fun c => { c with outputEnabled := true }
  | .timer_disable_oc_output tim ch =>
      s.updateTimer tim fun t =>
        t.updateOC ch fun c => { c with outputEnabled := false }
  | .timer_enable_break_main_output tim =>
      s.updateTimer tim fun t => { t with breakMainOutputEnabled := true }
  | .timer_enable_counter tim =>
      s.updateTimer tim fun t => { t with counterEnabled := true }
  | .systick_set_frequency freq ahb =>
      { s with systick := { s.systick with
          tickFrequency := freq, ahbInput := ahb, reload := ahb / freq - 1 } }
  | .systick_counter_enable =>
      { s with systick := { s.systick with counterEnabled := true } }
  | .systick_interrupt_enable =>
      { s with systick := { s.systick with interruptEnabled := true } }
  | .systick_interrupt_disable =>
      { s with systick := { s.systick with interruptEnabled := false } }

/-- Execute a sequence of hardware-abstraction calls. -/
def run (events : List Event) (s : HWState) : HWState :=
  events.foldl step s

/-- The clock preset selected by `setup_clock`
(`rcc_hse_16mhz_3v3[RCC_CLOCK_3V3_168MHZ]`, driven from the 16 MHz HSI). -/
def clockPlan168 : ClockPlan :=
  ⟨16000000, 168000000, 168000000, 42000000, 84000000⟩

/-- Trace of `setup_clock` (setup.c lines 20–35). -/
def setup_clock_events : List Event :=
  [.rcc_clock_setup_hsi_3v3 clockPlan168,
   .rcc_periph_clock_enable RCC_GPIOA,
   .rcc_periph_clock_enable RCC_GPIOB,
   .rcc_periph_clock_enable RCC_GPIOC,
   .rcc_periph_clock_enable RCC_TIM8,
   .rcc_periph_clock_enable RCC_TIM11,
   .dwt_enable_cycle_counter]

/-- Trace of `setup_gpio` (setup.c lines 78–93). -/
def setup_gpio_events : List Event :=
  [.gpio_mode_setup GPIOA GPIO_MODE_OUTPUT GPIO_PUPD_NONE
     (GPIO0 ||| GPIO1 ||| GPIO2 ||| GPIO3),
   .gpio_clear GPIOA (GPIO0 ||| GPIO1 ||| GPIO2 ||| GPIO3),
   .gpio_mode_setup GPIOB GPIO_MODE_AF GPIO_PUPD_NONE GPIO9,
   .gpio_set_af GPIOB GPIO_AF3 GPIO9,
   .gpio_mode_setup GPIOC GPIO_MODE_AF GPIO_PUPD_NONE
     (GPIO6 ||| GPIO7 ||| GPIO8 ||| GPIO9),
   .gpio_set_af GPIOC GPIO_AF3 (GPIO6 ||| GPIO7 ||| GPIO8 ||| GPIO9)]

/-- Trace of `setup_motor_driver` (setup.c lines 114–142); `apb2` is the
value of the global `rcc_apb2_frequency` read on line 120. -/
def setup_motor_driver_events (apb2 : Nat) (cfg : Config) : List Event :=
  [.timer_set_mode TIM8 TIM_CR1_CKD_CK_INT TIM_CR1_CMS_EDGE TIM_CR1_DIR_UP,
   .timer_set_prescaler TIM8 (pwm_prescaler apb2 24000000),
   .timer_set_repetition_counter TIM8 0,
   .timer_enable_preload TIM8,
   .timer_continuous_mode TIM8,
   .timer_set_period TIM8 cfg.DRIVER_PWM_PERIOD,
   .timer_set_oc_mode TIM8 TIM_OC1 TIM_OCM_PWM1,
   .timer_set_oc_mode TIM8 TIM_OC2 TIM_OCM_PWM1,
   .timer_set_oc_mode TIM8 TIM_OC3 TIM_OCM_PWM1,
   .timer_set_oc_mode TIM8 TIM_OC4 TIM_OCM_PWM1,
   .timer_set_oc_value TIM8 TIM_OC1 0,
   .timer_set_oc_value TIM8 TIM_OC2 0,
   .timer_set_oc_value TIM8 TIM_OC3 0,
   .timer_set_oc_value TIM8 TIM_OC4 0,
   .timer_enable_oc_output TIM8 TIM_OC1,
   .timer_enable_oc_output TIM8 TIM_OC2,
   .timer_enable_oc_output TIM8 TIM_OC3,
   .timer_enable_oc_output TIM8 TIM_OC4,
   .timer_enable_break_main_output TIM8,
   .timer_enable_counter TIM8]

/-- Trace of `setup_speaker` (setup.c lines 159–174); `apb2` is the
value of the global `rcc_apb2_frequency` read on line 165. -/
def setup_speaker_events (apb2 : Nat) (cfg : Config) : List Event :=
  [.timer_set_mode TIM11 TIM_CR1_CKD_CK_INT TIM_CR1_CMS_EDGE TIM_CR1_DIR_UP,
   .timer_set_prescaler TIM11 (pwm_prescaler apb2 cfg.SPEAKER_BASE_FREQUENCY_HZ),
   .timer_set_repetition_counter TIM11 0,
   .timer_enable_preload TIM11,
   .timer_continuous_mode TIM11,
   .timer_disable_oc_output TIM11 TIM_OC1,
   .timer_set_oc_mode TIM11 TIM_OC1 TIM_OCM_PWM1,
   .timer_enable_break_main_output TIM11]

/-- Trace of `setup_systick` (setup.c lines 48–52). -/
def setup_systick_events (cfg : Config) : List Event :=
  [.systick_set_frequency cfg.SYSTICK_FREQUENCY_HZ cfg.SYSCLK_FREQUENCY_HZ,
   .systick_counter_enable]

/-- Trace of `enable_systick_interruption` (setup.c lines 57–60). -/
def enable_systick_interruption_events : List Event :=
  [.systick_interrupt_enable]

/-- Trace of `disable_systick_interruption` (setup.c lines 65–68). -/
def disable_systick_interruption_events : List Event :=
  [.systick_interrupt_disable]

/-- Trace of `setup` (setup.c lines 179–186): clock, GPIO, speaker,
motor driver, SysTick, in that order.  After `setup_clock` the global
`rcc_apb2_frequency` holds the APB2 frequency of the selected preset. -/
def setup_events (cfg : Config) : List Event :=
  setup_clock_events ++
  setup_gpio_events ++
  setup_speaker_events clockPlan168.apb2 cfg ++
  setup_motor_driver_events clockPlan168.apb2 cfg ++
  setup_systick_events cfg

/-- Phases of the setup sequence, for ordering statements. -/
inductive Phase where
  | clockConfig
  | gpioBinding
  | speakerPwm
  | motorPwm
  | systickStart
deriving DecidableEq

/-- Classify a timer call by the peripheral it touches: TIM11 belongs to
the speaker instance, TIM8 to the motor instance. -/
def timerPhase (tim : Nat) : Phase :=
  if tim = TIM11 then .speakerPwm else .motorPwm

/-- Which setup phase a hardware call belongs to. -/
def eventPhase : Event → Phase
  | .rcc_clock_setup_hsi_3v3 _ => .clockConfig
  | .rcc_periph_clock_enable _ => .clockConfig
  | .dwt_enable_cycle_counter => .clockConfig
  | .gpio_mode_setup _ _ _ _ => .gpioBinding
  | .gpio_clear _ _ => .gpioBinding
  | .gpio_set_af _ _ _ => .gpioBinding
  | .timer_set_mode tim _ _ _ => timerPhase tim
  | .timer_set_prescaler tim _ => timerPhase tim
  | .timer_set_repetition_counter tim _ => timerPhase tim
  | .timer_enable_preload tim => timerPhase tim
  | .timer_continuous_mode tim => timerPhase tim
  | .timer_set_period tim _ => timerPhase tim
  | .timer_set_oc_mode tim _ _ => timerPhase tim
  | .timer_set_oc_value tim _ _ => timerPhase tim
  | .timer_enable_oc_output tim _ => timerPhase tim
  | .timer_disable_oc_output tim _ => timerPhase tim
  | .timer_enable_break_main_output tim => timerPhase tim
  | .timer_enable_counter tim => timerPhase tim
  | .systick_set_frequency _ _ => .systickStart
  | .systick_counter_enable => .systickStart
  | .systick_interrupt_enable => .systickStart
  | .systick_interrupt_disable => .systickStart

/-- Modelled from the spec: `speaker_on(frequency_hz)` — its
implementation is declared in `platform.h` but its definition is not
among the source files.  Per §4.3: recompute the prescaler for the
requested tick frequency with the same integer formula, set period and
compare for a 50%-style duty waveform, and enable the channel output.
The requested frequency is taken as an integral number of hertz. -/
def speaker_on_events (apb2 hz : Nat) : List Event :=
  [.timer_set_prescaler TIM11 (pwm_prescaler apb2 hz),
   .timer_set_period TIM11 hz,
   .timer_set_oc_value TIM11 TIM_OC1 (hz / 2),
   .timer_enable_oc_output TIM11 TIM_OC1]

/-- Modelled from the spec: `speaker_off()` — its implementation is not
among the source files.  Per §4.3: disable the channel output, without
stopping the counter. -/
def speaker_off_events : List Event :=
  [.timer_disable_oc_output TIM11 TIM_OC1]

end Meiga

namespace Meiga

/-- A sample configuration with plausible values for the `setup.h`
constants, used for concrete evaluations. -/
def cfg0 : Config := ⟨1000, 168000000, 1024, 3500000⟩

/-- When the bus clock is at least the requested tick frequency (and
fits in 32 bits), the C expression `bus / tick - 1` computes the exact
mathematical value `bus / tick − 1` without wrapping. -/
theorem pwm_prescaler_eq_div_sub_one (bus tick : Nat) (htick : 0 < tick)
    (hle : tick ≤ bus) (hbus : bus < UINT32_MOD) :
    pwm_prescaler bus tick = bus / tick - 1 := by
  have hq1 : 1 ≤ bus / tick := (Nat.one_le_div_iff htick).mpr hle
  have hq2 : bus / tick < UINT32_MOD := lt_of_le_of_lt (Nat.div_le_self _ _) hbus
  unfold pwm_prescaler
  have hsplit : bus / tick + (UINT32_MOD - 1) = (bus / tick - 1) + UINT32_MOD := by
    have : 0 < UINT32_MOD := by norm_num [UINT32_MOD]
    omega
  rw [hsplit, Nat.add_mod_right, Nat.mod_eq_of_lt (by omega)]

/-- C1: with a 16 MHz oscillator and a 168 MHz target system clock,
clock configuration succeeds and derives AHB = 168 MHz, APB1 = 42 MHz
and APB2 = 84 MHz, each at or below its documented ceiling. -/
theorem configure_hsi16_target168_ok :
    configure 16000000 168000000 = some clockPlan168 ∧
    clockPlan168.ahb = 168000000 ∧
    clockPlan168.apb1 = 42000000 ∧
    clockPlan168.apb2 = 84000000 ∧
    clockPlan168.ahb ≤ AHB_MAX_HZ ∧
    clockPlan168.apb1 ≤ APB1_MAX_HZ ∧
    clockPlan168.apb2 ≤ APB2_MAX_HZ := by
  decide

/-- C2: `setup()` performs clock configuration (7 calls), then the
static GPIO bindings (6 calls), then speaker PWM initialization
(8 calls), then motor PWM initialization (20 calls), then SysTick
startup (2 calls) — each phase exactly once, contiguous and in this
order, and the first hardware call of all is the clock-tree setup. -/
theorem setup_phase_order (cfg : Config) :
    (setup_events cfg).map eventPhase =
      List.replicate 7 Phase.clockConfig ++ List.replicate 6 Phase.gpioBinding ++
      List.replicate 8 Phase.speakerPwm ++ List.replicate 20 Phase.motorPwm ++
      List.replicate 2 Phase.systickStart ∧
    (setup_events cfg).head? = some (.rcc_clock_setup_hsi_3v3 clockPlan168) :=
  ⟨rfl, rfl⟩

/-- C3 counterexample: speaker initialization does not run the full
shared algorithm — its trace contains no period write, no compare
write, no output enable and no counter start, and it ends with its
channel output disabled and its counter not running. -/
theorem speaker_init_not_full_algorithm :
    ((setup_speaker_events 84000000 cfg0).all fun e =>
      match e with
      | .timer_set_period _ _ => false
      | .timer_set_oc_value _ _ _ => false
      | .timer_enable_oc_output _ _ => false
      | .timer_enable_counter _ => false
      | _ => true) = true ∧
    (run (setup_speaker_events 84000000 cfg0) HWState.reset).tim11.counterEnabled = false ∧
    (run (setup_speaker_events 84000000 cfg0) HWState.reset).tim11.oc1.outputEnabled = false :=
  ⟨rfl, rfl, rfl⟩

/-- C3 amended: the two PWM instances share the common prefix of the
algorithm (up-counting edge-aligned mode, prescaler from the same
integer formula, zero repetition counter, preload, continuous mode,
PWM1 output-compare mode, master output enable), and the motor instance
completes it (period set, compare zeroed, outputs enabled, counter
started); the speaker instance instead leaves period, compare and
counter untouched and disables its channel output. -/
theorem pwm_shared_prefix_motor_full_speaker_partial
    (apb2 : Nat) (cfg : Config) (s : HWState) :
    ((run (setup_motor_driver_events apb2 cfg) s).tim8.ckd = TIM_CR1_CKD_CK_INT ∧
     (run (setup_motor_driver_events apb2 cfg) s).tim8.cms = TIM_CR1_CMS_EDGE ∧
     (run (setup_motor_driver_events apb2 cfg) s).tim8.dir = TIM_CR1_DIR_UP ∧
     (run (setup_motor_driver_events apb2 cfg) s).tim8.prescaler = pwm_prescaler apb2 24000000 ∧
     (run (setup_motor_driver_events apb2 cfg) s).tim8.repetitionCounter = 0 ∧
     (run (setup_motor_driver_events apb2 cfg) s).tim8.preloadEnabled = true ∧
     (run (setup_motor_driver_events apb2 cfg) s).tim8.continuousMode = true ∧
     (run (setup_motor_driver_events apb2 cfg) s).tim8.period = cfg.DRIVER_PWM_PERIOD ∧
     (run (setup_motor_driver_events apb2 cfg) s).tim8.oc1.mode = TIM_OCM_PWM1 ∧
     (run (setup_motor_driver_events apb2 cfg) s).tim8.oc1.value = 0 ∧
     (run (setup_motor_driver_events apb2 cfg) s).tim8.oc1.outputEnabled = true ∧
     (run (setup_motor_driver_events apb2 cfg) s).tim8.breakMainOutputEnabled = true ∧
     (run (setup_motor_driver_events apb2 cfg) s).tim8.counterEnabled = true) ∧
    ((run (setup_speaker_events apb2 cfg) s).tim11.ckd = TIM_CR1_CKD_CK_INT ∧
     (run (setup_speaker_events apb2 cfg) s).tim11.cms = TIM_CR1_CMS_EDGE ∧
     (run (setup_speaker_events apb2 cfg) s).tim11.dir = TIM_CR1_DIR_UP ∧
     (run (setup_speaker_events apb2 cfg) s).tim11.prescaler =
       pwm_prescaler apb2 cfg.SPEAKER_BASE_FREQUENCY_HZ ∧
     (run (setup_speaker_events apb2 cfg) s).tim11.repetitionCounter = 0 ∧
     (run (setup_speaker_events apb2 cfg) s).tim11.preloadEnabled = true ∧
     (run (setup_speaker_events apb2 cfg) s).tim11.continuousMode = true ∧
     (run (setup_speaker_events apb2 cfg) s).tim11.oc1.mode = TIM_OCM_PWM1 ∧
     (run (setup_speaker_events apb2 cfg) s).tim11.breakMainOutputEnabled = true ∧
     (run (setup_speaker_events apb2 cfg) s).tim11.period = s.tim11.period ∧
     (run (setup_speaker_events apb2 cfg) s).tim11.oc1.value = s.tim11.oc1.value ∧
     (run (setup_speaker_events apb2 cfg) s).tim11.oc1.outputEnabled = false ∧
     (run (setup_speaker_events apb2 cfg) s).tim11.counterEnabled = s.tim11.counterEnabled) :=
  ⟨⟨rfl, rfl, rfl, rfl, rfl, rfl, rfl, rfl, rfl, rfl, rfl, rfl, rfl⟩,
   ⟨rfl, rfl, rfl, rfl, rfl, rfl, rfl, rfl, rfl, rfl, rfl, rfl, rfl⟩⟩

/-- C4: for bus and tick frequencies accepted by initialization (tick
positive and no greater than the 32-bit bus frequency), reconstructing
the tick as bus / (prescaler + 1) reproduces the requested tick within
a relative error of one part in (prescaler + 1). -/
theorem prescaler_roundtrip (bus tick : Nat) (htick : 0 < tick)
    (hle : tick ≤ bus) (hbus : bus < UINT32_MOD) :
    |reconstructedTick bus (pwm_prescaler bus tick) - (tick : ℚ)| ≤
      (tick : ℚ) / ((pwm_prescaler bus tick : ℚ) + 1) := by
  have hp := pwm_prescaler_eq_div_sub_one bus tick htick hle hbus
  have hq1 : 1 ≤ bus / tick := (Nat.one_le_div_iff htick).mpr hle
  have h1 : bus / tick - 1 + 1 = bus / tick := by omega
  have hsucc : ((pwm_prescaler bus tick : ℚ) + 1) = ((bus / tick : Nat) : ℚ) := by
    rw [hp]
    exact_mod_cast h1
  have hq0 : (0 : ℚ) < ((bus / tick : Nat) : ℚ) := by exact_mod_cast hq1
  have hbusdecomp : (bus : ℚ) =
      (tick : ℚ) * ((bus / tick : Nat) : ℚ) + ((bus % tick : Nat) : ℚ) := by
    exact_mod_cast (Nat.div_add_mod bus tick).symm
  rw [reconstructedTick, hsucc, hbusdecomp]
  have hstep : ((tick : ℚ) * ((bus / tick : Nat) : ℚ) + ((bus % tick : Nat) : ℚ)) /
        ((bus / tick : Nat) : ℚ) - (tick : ℚ)
      = ((bus % tick : Nat) : ℚ) / ((bus / tick : Nat) : ℚ) := by
    field_simp
    ring
  rw [hstep, abs_of_nonneg (div_nonneg (Nat.cast_nonneg _) (Nat.cast_nonneg _))]
  refine (div_le_div_iff_of_pos_right hq0).mpr ?_
  have : bus % tick < tick := Nat.mod_lt _ htick
  exact_mod_cast this.le

/-- Witness for C4 at bus = 84 MHz, tick = 24 MHz. -/
theorem prescaler_roundtrip_witness :
    0 < 24000000 ∧ 24000000 ≤ 84000000 ∧ 84000000 < UINT32_MOD ∧
    |reconstructedTick 84000000 (pwm_prescaler 84000000 24000000) - (24000000 : ℚ)| ≤
      (24000000 : ℚ) / ((pwm_prescaler 84000000 24000000 : ℚ) + 1) :=
  ⟨by decide, by decide, by decide,
   prescaler_roundtrip 84000000 24000000 (by decide) (by decide) (by decide)⟩

/-- C5: with APB2 at 84 MHz and a requested motor counter tick of
24 MHz, motor PWM initialization computes and programs prescaler
84000000 / 24000000 − 1 = 2 by integer truncation, and the resulting
counter tick frequency is 84 MHz / 3 = 28 MHz. -/
theorem motor_prescaler_84MHz_24MHz :
    pwm_prescaler 84000000 24000000 = 84000000 / 24000000 - 1 ∧
    pwm_prescaler 84000000 24000000 = 2 ∧
    (run (setup_motor_driver_events 84000000 cfg0) HWState.reset).tim8.prescaler = 2 ∧
    reconstructedTick 84000000 2 = 28000000 := by
  refine ⟨by decide, by decide, by decide, ?_⟩
  norm_num [reconstructedTick]

/-- C6: after motor PWM initialization, all four channels are in PWM1
mode with compare value 0, all four channel outputs and the master
break output are enabled, and the counter is running. -/
theorem motor_init_channels_enabled_zero_duty
    (apb2 : Nat) (cfg : Config) (s : HWState) :
    ((run (setup_motor_driver_events apb2 cfg) s).tim8.oc1.mode = TIM_OCM_PWM1 ∧
     (run (setup_motor_driver_events apb2 cfg) s).tim8.oc2.mode = TIM_OCM_PWM1 ∧
     (run (setup_motor_driver_events apb2 cfg) s).tim8.oc3.mode = TIM_OCM_PWM1 ∧
     (run (setup_motor_driver_events apb2 cfg) s).tim8.oc4.mode = TIM_OCM_PWM1) ∧
    ((run (setup_motor_driver_events apb2 cfg) s).tim8.oc1.value = 0 ∧
     (run (setup_motor_driver_events apb2 cfg) s).tim8.oc2.value = 0 ∧
     (run (setup_motor_driver_events apb2 cfg) s).tim8.oc3.value = 0 ∧
     (run (setup_motor_driver_events apb2 cfg) s).tim8.oc4.value = 0) ∧
    ((run (setup_motor_driver_events apb2 cfg) s).tim8.oc1.outputEnabled = true ∧
     (run (setup_motor_driver_events apb2 cfg) s).tim8.oc2.outputEnabled = true ∧
     (run (setup_motor_driver_events apb2 cfg) s).tim8.oc3.outputEnabled = true ∧
     (run (setup_motor_driver_events apb2 cfg) s).tim8.oc4.outputEnabled = true) ∧
    (run (setup_motor_driver_events apb2 cfg) s).tim8.breakMainOutputEnabled = true ∧
    (run (setup_motor_driver_events apb2 cfg) s).tim8.counterEnabled = true :=
  ⟨⟨rfl, rfl, rfl, rfl⟩, ⟨rfl, rfl, rfl, rfl⟩, ⟨rfl, rfl, rfl, rfl⟩, rfl, rfl⟩

/-- C7: after speaker PWM initialization — from any prior state — the
speaker channel output is disabled, and it is still disabled after the
whole of `setup()` completes. -/
theorem speaker_output_disabled_after_setup
    (apb2 : Nat) (cfg : Config) (s : HWState) :
    (run (setup_speaker_events apb2 cfg) s).tim11.oc1.outputEnabled = false ∧
    (run (setup_events cfg) HWState.reset).tim11.oc1.outputEnabled = false :=
  ⟨rfl, rfl⟩

/-- C8 counterexample: with a 1 MHz bus clock, far below the 24 MHz
requested tick, motor PWM initialization does not fail — it runs to
completion (counter started) and programs the 32-bit wrapped prescaler
2^32 − 1. -/
theorem pwm_init_no_failure_on_low_bus :
    (run (setup_motor_driver_events 1000000 cfg0) HWState.reset).tim8.prescaler =
      4294967295 ∧
    (run (setup_motor_driver_events 1000000 cfg0) HWState.reset).tim8.counterEnabled =
      true ∧
    pwm_prescaler 1000000 24000000 = UINT32_MOD - 1 := by
  refine ⟨by decide, rfl, by decide⟩

/-- C8 amended: PWM initialization never fails; the prescaler is
computed in 32-bit unsigned wrapping arithmetic and unconditionally
programmed.  When the requested tick is at most the bus frequency the
exact value bus / tick − 1 is programmed; when the bus frequency is
below the tick the subtraction wraps to 2^32 − 1. -/
theorem pwm_prescaler_always_programmed (bus tick : Nat) (cfg : Config)
    (s : HWState) (hbus : bus < UINT32_MOD) (htick : 0 < tick) :
    (run (setup_speaker_events bus { cfg with SPEAKER_BASE_FREQUENCY_HZ := tick }) s).tim11.prescaler
        = pwm_prescaler bus tick ∧
    (run (setup_motor_driver_events bus cfg) s).tim8.prescaler =
      pwm_prescaler bus 24000000 ∧
    (tick ≤ bus → pwm_prescaler bus tick = bus / tick - 1) ∧
    (bus < tick → pwm_prescaler bus tick = UINT32_MOD - 1) := by
  refine ⟨rfl, rfl,
    fun hle => pwm_prescaler_eq_div_sub_one bus tick htick hle hbus,
    fun hlt => ?_⟩
  unfold pwm_prescaler
  rw [Nat.div_eq_of_lt hlt]
  decide

/-- Witness for the amended C8 at bus = 84 MHz, tick = 3.5 MHz. -/
theorem pwm_prescaler_always_programmed_witness :
    84000000 < UINT32_MOD ∧ 0 < 3500000 ∧
    ((run (setup_speaker_events 84000000 { cfg0 with SPEAKER_BASE_FREQUENCY_HZ := 3500000 }) HWState.reset).tim11.prescaler
        = pwm_prescaler 84000000 3500000 ∧
     (run (setup_motor_driver_events 84000000 cfg0) HWState.reset).tim8.prescaler =
       pwm_prescaler 84000000 24000000 ∧
     (3500000 ≤ 84000000 → pwm_prescaler 84000000 3500000 = 84000000 / 3500000 - 1) ∧
     (84000000 < 3500000 → pwm_prescaler 84000000 3500000 = UINT32_MOD - 1)) :=
  ⟨by decide, by decide,
   pwm_prescaler_always_programmed 84000000 3500000 cfg0 HWState.reset
     (by decide) (by decide)⟩

/-- C9: for every frequency, `speaker_on` followed immediately by
`speaker_off` leaves the speaker channel output disabled; and
`speaker_off`, from any state, only disables the channel output —
the counter keeps its running state and every other field of the
timer configuration is unchanged. -/
theorem speaker_on_then_off_silent (apb2 hz : Nat) (s : HWState) :
    (run speaker_off_events
        (run (speaker_on_events apb2 hz) s)).tim11.oc1.outputEnabled = false ∧
    run speaker_off_events s =
      { s with tim11 := { s.tim11 with oc1 := { s.tim11.oc1 with outputEnabled := false } } } ∧
    (run speaker_off_events s).tim11.counterEnabled = s.tim11.counterEnabled :=
  ⟨rfl, rfl, rfl⟩

/-- C10: after `setup()` the SysTick counter is enabled and configured
at the requested tick frequency (reload programmed from the system
clock), while the SysTick interruption stays disabled; it becomes
enabled only once `enable_systick_interruption()` is called. -/
theorem systick_counter_on_interrupt_off_after_setup (cfg : Config) :
    (run (setup_events cfg) HWState.reset).systick.counterEnabled = true ∧
    (run (setup_events cfg) HWState.reset).systick.interruptEnabled = false ∧
    (run (setup_events cfg) HWState.reset).systick.tickFrequency =
      cfg.SYSTICK_FREQUENCY_HZ ∧
    (run (setup_events cfg) HWState.reset).systick.ahbInput =
      cfg.SYSCLK_FREQUENCY_HZ ∧
    (run (setup_events cfg) HWState.reset).systick.reload =
      cfg.SYSCLK_FREQUENCY_HZ / cfg.SYSTICK_FREQUENCY_HZ - 1 ∧
    (run enable_systick_interruption_events
        (run (setup_events cfg) HWState.reset)).systick.interruptEnabled = true :=
  ⟨rfl, rfl, rfl, rfl, rfl, rfl⟩

end Meiga
